import Mathlib

/-!
Verification of the pricing and statistical aggregation engine of the
wortha repository (`src/stats_helpers.py`, `src/constants.py`, `src/main.py`,
`src/analytics_helpers.py`, `src/models.py`).

Modelling conventions:
* Python `float` values are modelled as exact rationals (`ℚ`).  All fee,
  multiplier and CPM arithmetic in the source uses values whose exact
  decimal results are what the specification states.
* Python `int` is modelled as `ℤ` (or `ℕ` for lengths/counts).
* `None` / optional values are modelled with `Option`.
* A SQL query over the `deal_contribution` table is modelled as a filter
  over an in-memory list of `DealContribution` records (the session is a
  read-only snapshot, as the specification's §3 ownership note describes).
* `int(n * 0.1)` and `int(n * 0.9)` on a nonnegative integer `n` are
  modelled as `n / 10` and `n * 9 / 10` (floor division): for every list
  length or follower count representable in an IEEE double these agree
  with the Python expressions, because `float` rounding of `n * 0.1` and
  `n * 0.9` never crosses an integer boundary for `n` in that range.
* Python's `sorted` (a stable sort; stability is irrelevant here because
  only the values are sorted) is modelled by `List.insertionSort (· ≤ ·)`,
  which produces the same list: a sorted permutation of a list of
  rationals is unique.
* `str.lower` is modelled on ASCII letters only; all codes, labels and
  aliases in `src/constants.py` are ASCII.
-/

/-! ## Python string primitives used by `src/constants.py` -/

/-- Default whitespace stripped by Python's `str.strip()`. -/
def pyIsSpace (c : Char) : Bool :=
  c == ' ' || c == '\t' || c == '\n' || c == '\r' || c == '\x0b' || c == '\x0c'

/-- Python `str.strip()`. -/
def pyStrip (s : String) : String :=
  String.mk (((s.data.dropWhile pyIsSpace).reverse.dropWhile pyIsSpace).reverse)

/-- Python `str.lower()` restricted to ASCII letters. -/
def pyLowerChar (c : Char) : Char :=
  if 'A' ≤ c ∧ c ≤ 'Z' then Char.ofNat (c.toNat + 32) else c

/-- Python `str.lower()` (ASCII). -/
def pyLower (s : String) : String :=
  String.mk (s.data.map pyLowerChar)

/-- Characters kept by the slug regex `[a-z0-9]` of `_slugify`. -/
def isSlugChar (c : Char) : Bool :=
  ('a' ≤ c && c ≤ 'z') || ('0' ≤ c && c ≤ '9')

/-- Collapse runs of `'_'` to a single `'_'` (the `re.sub(r"_+", "_", ·)`
step of `_slugify`; it also absorbs the run-collapsing of the first
substitution `re.sub(r"[^a-z0-9]+", "_", ·)`, which is applied here by
first mapping every non-slug character to `'_'`). -/
def collapseUnderscores : List Char → List Char
  | [] => []
  | [c] => [c]
  | a :: b :: rest =>
    if a == '_' && b == '_' then collapseUnderscores (b :: rest)
    else a :: collapseUnderscores (b :: rest)

/-- Python `str.strip("_")`. -/
def stripUnderscores (l : List Char) : List Char :=
  ((l.dropWhile (· == '_')).reverse.dropWhile (· == '_')).reverse

/-- `_slugify` from `src/constants.py`: strip, lower-case, replace runs of
characters outside `[a-z0-9]` by `'_'`, collapse `'_'` runs, strip `'_'`. -/
def _slugify (s : String) : String :=
  let v := pyLower (pyStrip s)
  let mapped := v.data.map (fun c => if isSlugChar c then c else '_')
  String.mk (stripUnderscores (collapseUnderscores mapped))

/-- Python `a in "…" ` substring test (`key in niche_key` in
`calculate_rate`). -/
def pySubstr (needle hay : String) : Bool :=
  hay.data.tails.any (fun t => needle.data.isPrefixOf t)

/-! ## Python dicts with string keys (insertion order preserved) -/

/-- `d[k] = v` on a Python dict: overwrite in place or append. -/
def dict_insert (d : List (String × String)) (k v : String) : List (String × String) :=
  if d.any (fun p => p.1 == k) then d.map (fun p => if p.1 == k then (k, v) else p)
  else d ++ [(k, v)]

/-- `d.get(k)` on a Python dict (keys are unique by construction). -/
def dict_get? (d : List (String × String)) (k : String) : Option String :=
  (d.find? (fun p => p.1 == k)).map (fun p => p.2)

/-! ## `src/constants.py` -/

def PLATFORMS : List (String × String) :=
  [("youtube", "YouTube"), ("instagram", "Instagram"), ("tiktok", "TikTok"),
   ("linkedin", "LinkedIn"), ("twitter", "X/Twitter"), ("twitch", "Twitch"),
   ("podcast", "Podcast"), ("newsletter", "Newsletter"), ("other", "Other")]

def NICHES : List (String × String) :=
  [("finance", "Finance"), ("beauty", "Beauty"), ("fashion", "Fashion"),
   ("gaming", "Gaming"), ("tech", "Tech"), ("fitness", "Fitness"),
   ("health", "Health"), ("lifestyle", "Lifestyle"), ("travel", "Travel"),
   ("food", "Food"), ("parenting", "Parenting"), ("education", "Education"),
   ("business", "Business"), ("self_improvement", "Self-Improvement"),
   ("music", "Music"), ("sports", "Sports"), ("comedy", "Comedy"),
   ("other", "Other")]

def GEO_REGIONS : List (String × String) :=
  [("us", "US"), ("canada", "Canada"), ("uk", "UK"), ("eu", "Europe (EU)"),
   ("latam", "Latin America (LATAM)"), ("apac", "Asia-Pacific (APAC)"),
   ("other", "Other")]

def _PLATFORM_ALIASES : List (String × String) :=
  [("x", "twitter"), ("twitter", "twitter"), ("x_twitter", "twitter"),
   ("yt", "youtube")]

def _GEO_ALIASES : List (String × String) :=
  [("usa", "us"), ("u_s", "us"), ("u_s_a", "us"), ("united_states", "us"),
   ("united_states_of_america", "us"), ("united_kingdom", "uk"),
   ("great_britain", "uk"), ("england", "uk"), ("europe", "eu"),
   ("europe_eu", "eu"), ("european_union", "eu"), ("latin_america", "latam"),
   ("south_america", "latam"), ("asia_pacific", "apac")]

/-- `_build_label_lookup` from `src/constants.py`. -/
def _build_label_lookup (options : List (String × String)) : List (String × String) :=
  options.foldl
    (fun d p => dict_insert (dict_insert d (_slugify p.2) p.1) (_slugify p.1) p.1) []

/-- `normalize_choice` from `src/constants.py`.  An empty `aliases` list
models the Python `aliases=None` default (both are falsy). -/
def normalize_choice (value : Option String) (allowed : List String)
    (lookup : List (String × String)) (aliases : List (String × String))
    (dflt : String) : String :=
  match value with
  | none => dflt
  | some v =>
    let raw := pyLower (pyStrip v)
    if raw == "" then dflt
    else if allowed.contains raw then raw
    else
      match (if aliases.isEmpty then none else dict_get? aliases raw) with
      | some a => a
      | none =>
        let slug := _slugify raw
        if allowed.contains slug then slug
        else
          match (if aliases.isEmpty then none else dict_get? aliases slug) with
          | some a => a
          | none =>
            match dict_get? lookup slug with
            | some c => c
            | none => dflt

def normalize_platform (value : Option String) : String :=
  normalize_choice value (PLATFORMS.map (fun p => p.1))
    (_build_label_lookup PLATFORMS) _PLATFORM_ALIASES "other"

def normalize_niche (value : Option String) : String :=
  normalize_choice value (NICHES.map (fun p => p.1))
    (_build_label_lookup NICHES) [] "other"

def normalize_geo_region (value : Option String) : String :=
  normalize_choice value (GEO_REGIONS.map (fun p => p.1))
    (_build_label_lookup GEO_REGIONS) _GEO_ALIASES "other"

/-! ## `src/stats_helpers.py` — OutlierSafeSummarizer -/

/-- Python `sorted` on a list of floats (modelled as rationals). -/
def pysort (l : List ℚ) : List ℚ := l.insertionSort (· ≤ ·)

/-- `statistics.median` on a nonempty list: sort, take the middle element
(odd length) or the mean of the two middle elements (even length).  The
default value `0` of `getD` is never read on a nonempty list. -/
def pymedian (l : List ℚ) : ℚ :=
  let s := pysort l
  let n := s.length
  if n % 2 = 1 then s.getD (n / 2) 0
  else (s.getD (n / 2 - 1) 0 + s.getD (n / 2) 0) / 2

/-- `_safe_avg` from `src/stats_helpers.py`. -/
def _safe_avg (values : List ℚ) : Option ℚ :=
  if values = [] then none else some (values.sum / values.length)

/-- `_safe_median` from `src/stats_helpers.py`. -/
def _safe_median (values : List ℚ) : Option ℚ :=
  if values = [] then none else some (pymedian values)

/-- `_clip_outliers` from `src/stats_helpers.py`.  `lower_idx`/`upper_idx`
model `int(n * 0.1)` / `int(n * 0.9)`; the slice
`values_sorted[lower_idx:upper_idx]` is `drop` then `take`. -/
def _clip_outliers (values : List ℚ) : List ℚ :=
  if values.length < 5 then values
  else
    let values_sorted := pysort values
    let n := values_sorted.length
    let lower_idx := n / 10
    let upper_idx := n * 9 / 10
    if upper_idx ≤ lower_idx then values_sorted
    else
      let clipped := (values_sorted.drop lower_idx).take (upper_idx - lower_idx)
      if clipped = [] then values_sorted else clipped

/-- The `{count, avg, median, min, max}` dictionary returned by the fee and
CPM summarizers. -/
structure FeeSummary where
  count : ℕ
  avg : Option ℚ
  median : Option ℚ
  min : Option ℚ
  max : Option ℚ
deriving DecidableEq

/-- `summarize_fees_outlier_safe` from `src/stats_helpers.py`.
`values_sorted[0]`/`values_sorted[-1]` are `head?`/`getLast?` (always
`some` on the nonempty branch). -/
def summarize_fees_outlier_safe (values : List ℚ) : FeeSummary :=
  if values = [] then ⟨0, none, none, none, none⟩
  else
    let values_sorted := pysort values
    let clipped := _clip_outliers values_sorted
    ⟨values_sorted.length, _safe_avg clipped, _safe_median clipped,
      values_sorted.head?, values_sorted.getLast?⟩

/-- The `cpms` list built by `summarize_cpm_outlier_safe`: zip fees with
views, drop pairs whose view is missing or not positive or whose fee is
missing, convert the rest to `fee / view * 1000`. -/
def cpm_values (fees : List (Option ℚ)) (views : List (Option ℤ)) : List ℚ :=
  (fees.zip views).filterMap (fun fv =>
    match fv.2 with
    | none => none
    | some v =>
      if v ≤ 0 then none
      else
        match fv.1 with
        | none => none
        | some f => some (f / (v : ℚ) * 1000))

/-- `summarize_cpm_outlier_safe` from `src/stats_helpers.py`. -/
def summarize_cpm_outlier_safe (fees : List (Option ℚ)) (views : List (Option ℤ)) :
    FeeSummary :=
  let cpms := cpm_values fees views
  if cpms = [] then ⟨0, none, none, none, none⟩
  else
    let cpms_sorted := pysort cpms
    let clipped := _clip_outliers cpms_sorted
    ⟨cpms_sorted.length, _safe_avg clipped, _safe_median clipped,
      cpms_sorted.head?, cpms_sorted.getLast?⟩

/-! ## `src/models.py` — DealContribution (fields used by the core) -/

/-- Python `datetime` (microseconds are never set by the quarter ranges and
are omitted); comparison is lexicographic. -/
structure PyDateTime where
  year : ℤ
  month : ℕ
  day : ℕ
  hour : ℕ := 0
  minute : ℕ := 0
  second : ℕ := 0
deriving DecidableEq

/-- Lexicographic `<=` on `datetime` values. -/
def PyDateTime.le (a b : PyDateTime) : Bool :=
  if a.year ≠ b.year then a.year < b.year
  else if a.month ≠ b.month then a.month < b.month
  else if a.day ≠ b.day then a.day < b.day
  else if a.hour ≠ b.hour then a.hour < b.hour
  else if a.minute ≠ b.minute then a.minute < b.minute
  else a.second ≤ b.second

/-- The columns of `deal_contribution` read by the statistics and report
code (`src/models.py`, class `DealContribution`); the remaining columns
(ids, audit fields, free-text fields) are never read by the functions
modelled here.  `total_fee_usd` is kept optional because every reader
guards against a missing fee. -/
structure DealContribution where
  created_at : PyDateTime
  platform : String
  niche : Option String := none
  geo_region : Option String := none
  follower_tier : String
  total_fee_usd : Option ℚ := none
  reported_views : Option ℤ := none
  share_in_index : Bool := true
deriving DecidableEq

/-! ## `get_bucket_community_pricing` from `src/stats_helpers.py` -/

/-- The rows returned by the query in `get_bucket_community_pricing`:
shared records of the cohort with a positive fee; the geography filter is
added only when `geo_region` is truthy and not `"other"`. -/
def community_rows (db : List DealContribution)
    (platform niche follower_tier : String) (geo_region : Option String) :
    List DealContribution :=
  let base := db.filter (fun r =>
    r.share_in_index && r.platform == platform && r.niche == some niche &&
    r.follower_tier == follower_tier &&
    (match r.total_fee_usd with
     | some f => decide (0 < f)
     | none => false))
  match geo_region with
  | some g => if g != "" && g != "other" then base.filter (fun r => r.geo_region == some g) else base
  | none => base

/-- The `CohortPricing` dictionary `{deal_count, avg_fee, median_fee,
min_fee, max_fee}`. -/
structure CohortPricing where
  deal_count : ℕ
  avg_fee : Option ℚ
  median_fee : Option ℚ
  min_fee : Option ℚ
  max_fee : Option ℚ
deriving DecidableEq

/-- `get_bucket_community_pricing` from `src/stats_helpers.py`: the
session is modelled as the list of all `DealContribution` rows. -/
def get_bucket_community_pricing (db : List DealContribution)
    (platform niche follower_tier : String)
    (geo_region : Option String := none) (min_deals : ℕ := 5) :
    Option CohortPricing :=
  let rows := community_rows db platform niche follower_tier geo_region
  let fees := rows.filterMap (fun r => r.total_fee_usd)
  if fees.length < min_deals then none
  else
    let summary := summarize_fees_outlier_safe fees
    some ⟨summary.count, summary.avg, summary.median, summary.min, summary.max⟩

/-! ## `calculate_rate` from `src/main.py` (the RateModel) -/

/-- The dictionary returned by `calculate_rate`. -/
structure RateResult where
  recommended_min : ℚ
  recommended_max : ℚ
  base_cpm : ℚ
  niche_multiplier : ℚ
  engagement_multiplier : ℚ
  geo_multiplier : ℚ
  effective_cpm : ℚ
  views : ℤ
deriving DecidableEq

/-- The `platform_cpm` dict of `calculate_rate` (insertion order kept). -/
def platform_cpm : List (String × ℚ) :=
  [("youtube", 15), ("instagram", 12), ("tiktok", 10), ("linkedin", 18),
   ("twitter", 11), ("twitch", 14), ("podcast", 20), ("newsletter", 16),
   ("other", 8)]

/-- The `niche_multipliers` dict of `calculate_rate` (insertion order is
significant: the loop takes the first key contained in the niche code). -/
def niche_multipliers : List (String × ℚ) :=
  [("finance", 1.4), ("investing", 1.4), ("business", 1.4), ("beauty", 1.2),
   ("fashion", 1.2), ("tech", 1.3), ("gaming", 1.3), ("fitness", 1.15),
   ("health", 1.15)]

/-- `d.get(k)` on a dict with rational values. -/
def dict_getQ? (d : List (String × ℚ)) (k : String) : Option ℚ :=
  (d.find? (fun p => p.1 == k)).map (fun p => p.2)

/-- The `for key, value in niche_multipliers.items(): if key in niche_key:
… break` loop of `calculate_rate`: first substring match wins, default 1.0. -/
def first_niche_multiplier : List (String × ℚ) → String → ℚ
  | [], _ => 1
  | (k, v) :: rest, niche_key =>
    if pySubstr k niche_key then v else first_niche_multiplier rest niche_key

/-- `calculate_rate` from `src/main.py` lines 115–193.  The view fallback
`int(followers * 0.1)` is `followers / 10` (truncating division on a
positive integer). -/
def calculate_rate (platform niche : String) (followers avg_views : Option ℤ)
    (engagement_rate : Option ℚ) (geo_region : String) : RateResult :=
  let platform_key := normalize_platform (some platform)
  let niche_key := normalize_niche (some niche)
  let base_cpm := (dict_getQ? platform_cpm platform_key).getD 8
  let niche_multiplier := first_niche_multiplier niche_multipliers niche_key
  let engagement_multiplier : ℚ :=
    match engagement_rate with
    | none => 1
    | some er => if er < 1 then 0.8 else if er < 3 then 1 else if er < 5 then 1.15 else 1.3
  let geo_key := normalize_geo_region (some geo_region)
  let geo_multiplier : ℚ :=
    if geo_key == "us" || geo_key == "canada" then 1.1
    else if geo_key == "uk" || geo_key == "eu" then 1.05
    else 1
  let views0 : ℤ :=
    match avg_views with
    | some v => if 0 < v then v else 0
    | none => 0
  let views : ℤ :=
    if views0 = 0 then
      match followers with
      | some f => if 0 < f then f / 10 else 0
      | none => 0
    else views0
  let effective_cpm := base_cpm * niche_multiplier * engagement_multiplier * geo_multiplier
  let base_rate : ℚ := if views = 0 then 0 else ((views : ℚ) / 1000) * effective_cpm
  { recommended_min := base_rate * 0.8
    recommended_max := base_rate * 1.2
    base_cpm := base_cpm
    niche_multiplier := niche_multiplier
    engagement_multiplier := engagement_multiplier
    geo_multiplier := geo_multiplier
    effective_cpm := effective_cpm
    views := views }

/-! ## The negotiation assessment of `negotiation_submit`
(`src/main.py` lines 667–709) -/

/-- `market_mid = (market_min + market_max) / 2 if (market_min +
market_max) > 0 else 0`. -/
def market_mid_of (market_min market_max : ℚ) : ℚ :=
  if 0 < market_min + market_max then (market_min + market_max) / 2 else 0

/-- `offer_vs_market_pct`, defined only when the market midpoint is
positive. -/
def offer_vs_market_pct (brand_offer market_min market_max : ℚ) : Option ℚ :=
  let mid := market_mid_of market_min market_max
  if 0 < mid then some ((brand_offer - mid) / mid * 100) else none

/-- The counter-offer band `(recommended_counter_min,
recommended_counter_max)` of `negotiation_submit`: absent when the market
midpoint is not positive. -/
def recommended_counter_band (brand_offer market_min market_max : ℚ) :
    Option (ℚ × ℚ) :=
  let mid := market_mid_of market_min market_max
  let pct := offer_vs_market_pct brand_offer market_min market_max
  if 0 < mid then
    match pct with
    | some q =>
      if q ≤ -10 then some (mid, market_max * 1.1)
      else some (mid * 0.9, market_max * 1.05)
    | none => some (mid * 0.9, market_max * 1.05)
  else none

/-! ## The community blend of `calculator_submit`
(`src/main.py` lines 883–902) -/

/-- The blend step applied by `calculator_submit` to the baseline
recommendation: returns the final `(recommended_min, recommended_max)` and
whether a community note was emitted. -/
def calculator_blend (baseline_min baseline_max : ℚ)
    (community_pricing : Option CohortPricing) : ℚ × ℚ × Bool :=
  let baseline_mid :=
    if 0 < baseline_min + baseline_max then (baseline_min + baseline_max) / 2 else 0
  match community_pricing with
  | none => (baseline_min, baseline_max, false)
  | some p =>
    if 5 ≤ p.deal_count then
      match p.median_fee with
      | none => (baseline_min, baseline_max, false)
      | some community_mid =>
        if 0 < baseline_mid then
          let ratio := if 0 < baseline_mid then community_mid / baseline_mid else 0
          if 0.5 ≤ ratio ∧ ratio ≤ 2.0 then
            let final_mid := 0.6 * baseline_mid + 0.4 * community_mid
            (final_mid * 0.8, final_mid * 1.2, true)
          else (baseline_min, baseline_max, false)
        else (baseline_min, baseline_max, false)
    else (baseline_min, baseline_max, false)

/-! ## `src/analytics_helpers.py` — QuarterlyNicheReportBuilder -/

/-- `_quarter_date_range` from `src/analytics_helpers.py`: any quarter
value other than 1, 2, 3 falls into the Q4 branch (the caller validates
the quarter before calling). -/
def _quarter_date_range (year quarter : ℤ) : PyDateTime × PyDateTime :=
  if quarter = 1 then (⟨year, 1, 1, 0, 0, 0⟩, ⟨year, 3, 31, 23, 59, 59⟩)
  else if quarter = 2 then (⟨year, 4, 1, 0, 0, 0⟩, ⟨year, 6, 30, 23, 59, 59⟩)
  else if quarter = 3 then (⟨year, 7, 1, 0, 0, 0⟩, ⟨year, 9, 30, 23, 59, 59⟩)
  else (⟨year, 10, 1, 0, 0, 0⟩, ⟨year, 12, 31, 23, 59, 59⟩)

/-- The rows returned by the window query of `build_quarterly_niche_stats`:
shared records of the niche created inside the window, optionally filtered
by platform (skipped when the platform filter is falsy or `"all"`). -/
def quarter_rows (db : List DealContribution) (niche_code : String)
    (platform_code : Option String) (start_date end_date : PyDateTime) :
    List DealContribution :=
  let base := db.filter (fun r =>
    r.share_in_index && r.niche == some niche_code &&
    PyDateTime.le start_date r.created_at && PyDateTime.le r.created_at end_date)
  match platform_code with
  | some p => if p != "" && p != "all" then base.filter (fun r => r.platform == p) else base
  | none => base

/-- The per-window summary dictionary produced by `_summarize_deals` and by
the below-threshold fallbacks of `build_quarterly_niche_stats`. -/
structure QuarterSummary where
  deal_count : ℕ
  avg_fee : Option ℚ
  median_fee : Option ℚ
  min_fee : Option ℚ
  max_fee : Option ℚ
  avg_cpm : Option ℚ
  median_cpm : Option ℚ
deriving DecidableEq

/-- `_summarize_deals` from `src/analytics_helpers.py`: fees are the
non-missing `total_fee_usd`, views are `reported_views or 0`. -/
def _summarize_deals (rows : List DealContribution) : QuarterSummary :=
  let fees := rows.filterMap (fun r => r.total_fee_usd)
  let views := rows.map (fun r => some (r.reported_views.getD 0))
  let fee_summary := summarize_fees_outlier_safe fees
  let cpm_summary := summarize_cpm_outlier_safe (fees.map some) views
  ⟨rows.length, fee_summary.avg, fee_summary.median, fee_summary.min,
    fee_summary.max, cpm_summary.avg, cpm_summary.median⟩

/-- The previous-window dictionary (`prev_quarter`), which additionally
records its year and quarter. -/
structure PrevQuarterStats where
  deal_count : ℕ
  avg_fee : Option ℚ
  median_fee : Option ℚ
  min_fee : Option ℚ
  max_fee : Option ℚ
  avg_cpm : Option ℚ
  median_cpm : Option ℚ
  year : ℤ
  quarter : ℤ
deriving DecidableEq

/-- The roll-back of `build_quarterly_niche_stats` to the immediately
preceding quarter (Q1 of year Y rolls back to Q4 of year Y−1). -/
def prev_year_quarter (year quarter : ℤ) : ℤ × ℤ :=
  if quarter - 1 = 0 then (year - 1, 4) else (year, quarter - 1)

/-- The result dictionary of `build_quarterly_niche_stats`. -/
structure QuarterlyNicheStats where
  niche : String
  platform : String
  year : ℤ
  quarter : ℤ
  deal_count : ℕ
  avg_fee : Option ℚ
  median_fee : Option ℚ
  min_fee : Option ℚ
  max_fee : Option ℚ
  avg_cpm : Option ℚ
  median_cpm : Option ℚ
  enough_data_for_report : Bool
  min_deals_for_report : ℕ
  prev_quarter : Option PrevQuarterStats
deriving DecidableEq

/-- `build_quarterly_niche_stats` from `src/analytics_helpers.py` lines
192–284.  `raise ValueError(…)` is modelled as `Except.error`. -/
def build_quarterly_niche_stats (db : List DealContribution)
    (niche_code : String) (platform_code : Option String)
    (year quarter : ℤ) : Except String QuarterlyNicheStats :=
  if quarter ≠ 1 ∧ quarter ≠ 2 ∧ quarter ≠ 3 ∧ quarter ≠ 4 then
    .error "quarter must be between 1 and 4"
  else
    let dr := _quarter_date_range year quarter
    let rows := quarter_rows db niche_code platform_code dr.1 dr.2
    let fee_values := rows.filterMap (fun r => r.total_fee_usd)
    let fee_values_sorted := pysort fee_values
    let enough_data_for_report := 5 ≤ rows.length
    let summary : QuarterSummary :=
      if enough_data_for_report then _summarize_deals rows
      else ⟨rows.length, none, none, fee_values_sorted.head?,
        fee_values_sorted.getLast?, none, none⟩
    let pyq := prev_year_quarter year quarter
    let pdr := _quarter_date_range pyq.1 pyq.2
    let prev_rows := quarter_rows db niche_code platform_code pdr.1 pdr.2
    let prev_quarter : Option PrevQuarterStats :=
      if prev_rows = [] then none
      else
        let prev_fee_values := prev_rows.filterMap (fun r => r.total_fee_usd)
        let prev_fee_values_sorted := pysort prev_fee_values
        if 5 ≤ prev_rows.length then
          let s := _summarize_deals prev_rows
          some ⟨s.deal_count, s.avg_fee, s.median_fee, s.min_fee, s.max_fee,
            s.avg_cpm, s.median_cpm, pyq.1, pyq.2⟩
        else
          some ⟨prev_rows.length, none, none, prev_fee_values_sorted.head?,
            prev_fee_values_sorted.getLast?, none, none, pyq.1, pyq.2⟩
    .ok
      { niche := niche_code
        platform := match platform_code with
          | some p => if p == "" then "all" else p
          | none => "all"
        year := year
        quarter := quarter
        deal_count := summary.deal_count
        avg_fee := summary.avg_fee
        median_fee := summary.median_fee
        min_fee := summary.min_fee
        max_fee := summary.max_fee
        avg_cpm := summary.avg_cpm
        median_cpm := summary.median_cpm
        enough_data_for_report := enough_data_for_report
        min_deals_for_report := 5
        prev_quarter := prev_quarter }

/-! ## Helper lemmas about sorting, clipping and central tendency -/

theorem pysort_sorted (l : List ℚ) : List.Sorted (· ≤ ·) (pysort l) :=
  List.sorted_insertionSort _ l

theorem pysort_perm (l : List ℚ) : List.Perm (pysort l) l :=
  List.perm_insertionSort _ l

theorem mem_pysort {x : ℚ} {l : List ℚ} : x ∈ pysort l ↔ x ∈ l :=
  List.mem_insertionSort _

theorem pysort_length (l : List ℚ) : (pysort l).length = l.length :=
  List.length_insertionSort _ l

theorem pysort_ne_nil {l : List ℚ} (hl : l ≠ []) : pysort l ≠ [] := by
  intro h
  apply hl
  rw [← List.length_eq_zero, ← pysort_length, h]
  rfl

theorem mem_of_mem_clip {x : ℚ} {l : List ℚ} (h : x ∈ _clip_outliers l) : x ∈ l := by
  unfold _clip_outliers at h
  split at h
  · exact h
  · dsimp only at h
    split at h
    · exact mem_pysort.mp h
    · split at h
      · exact mem_pysort.mp h
      · exact mem_pysort.mp (List.drop_subset _ _ (List.take_subset _ _ h))

theorem clip_ne_nil {l : List ℚ} (hl : l ≠ []) : _clip_outliers l ≠ [] := by
  have hs : pysort l ≠ [] := pysort_ne_nil hl
  unfold _clip_outliers
  split
  · exact hl
  · dsimp only
    split
    · exact hs
    · split
      · exact hs
      · rename_i hcl
        exact hcl

theorem pysort_head_min {l : List ℚ} (hl : l ≠ []) :
    ∃ a, (pysort l).head? = some a ∧ a ∈ l ∧ ∀ x ∈ l, a ≤ x := by
  have hs : pysort l ≠ [] := pysort_ne_nil hl
  obtain ⟨a, t, ht⟩ := List.exists_cons_of_ne_nil hs
  have hsort := pysort_sorted l
  rw [ht] at hsort
  refine ⟨a, by rw [ht]; rfl, ?_, ?_⟩
  · exact mem_pysort.mp (by rw [ht]; exact List.mem_cons_self a t)
  · intro x hx
    have hx' : x ∈ a :: t := by rw [← ht]; exact mem_pysort.mpr hx
    rcases List.mem_cons.mp hx' with rfl | hx''
    · exact le_refl _
    · exact (List.sorted_cons.mp hsort).1 x hx''

theorem sorted_le_getLast? {l : List ℚ} (hsort : List.Sorted (· ≤ ·) l) {b : ℚ}
    (hb : l.getLast? = some b) : ∀ x ∈ l, x ≤ b := by
  induction l with
  | nil => simp at hb
  | cons a t ih =>
    intro x hx
    cases t with
    | nil =>
      simp only [List.getLast?_singleton, Option.some.injEq] at hb
      rcases List.mem_singleton.mp hx with rfl
      exact le_of_eq hb
    | cons c t' =>
      have hb' : (c :: t').getLast? = some b := by rwa [List.getLast?_cons_cons] at hb
      have hsort' : List.Sorted (· ≤ ·) (c :: t') := (List.sorted_cons.mp hsort).2
      rcases List.mem_cons.mp hx with rfl | hx'
      · have hbne : (c :: t') ≠ [] := by simp
        have hbmem : b ∈ c :: t' := by
          have := List.getLast?_eq_getLast (c :: t') hbne
          rw [this] at hb'
          have hbe : (c :: t').getLast hbne = b := by
            injection hb'
          rw [← hbe]
          exact List.getLast_mem hbne
        exact (List.sorted_cons.mp hsort).1 b hbmem
      · exact ih hsort' hb' x hx'

theorem pysort_getLast_max {l : List ℚ} (hl : l ≠ []) :
    ∃ b, (pysort l).getLast? = some b ∧ b ∈ l ∧ ∀ x ∈ l, x ≤ b := by
  have hs : pysort l ≠ [] := pysort_ne_nil hl
  have hb : (pysort l).getLast? = some ((pysort l).getLast hs) :=
    List.getLast?_eq_getLast _ hs
  refine ⟨_, hb, mem_pysort.mp (List.getLast_mem hs), ?_⟩
  intro x hx
  exact sorted_le_getLast? (pysort_sorted l) hb x (mem_pysort.mpr hx)

theorem mul_length_le_sum {a : ℚ} {l : List ℚ} (h : ∀ x ∈ l, a ≤ x) :
    a * l.length ≤ l.sum := by
  induction l with
  | nil => simp
  | cons c t ih =>
    have h1 : a ≤ c := h c (List.mem_cons_self c t)
    have h2 : a * t.length ≤ t.sum := ih (fun x hx => h x (List.mem_cons_of_mem c hx))
    simp only [List.sum_cons, List.length_cons]
    push_cast
    have he : a * (t.length + 1 : ℚ) = a * t.length + a := by ring
    rw [he]
    linarith

theorem sum_le_mul_length {b : ℚ} {l : List ℚ} (h : ∀ x ∈ l, x ≤ b) :
    l.sum ≤ b * l.length := by
  induction l with
  | nil => simp
  | cons c t ih =>
    have h1 : c ≤ b := h c (List.mem_cons_self c t)
    have h2 : t.sum ≤ b * t.length := ih (fun x hx => h x (List.mem_cons_of_mem c hx))
    simp only [List.sum_cons, List.length_cons]
    push_cast
    have he : b * (t.length + 1 : ℚ) = b * t.length + b := by ring
    rw [he]
    linarith

theorem avg_bounds {l : List ℚ} {a b : ℚ} (hl : l ≠ [])
    (ha : ∀ x ∈ l, a ≤ x) (hb : ∀ x ∈ l, x ≤ b) :
    a ≤ l.sum / l.length ∧ l.sum / l.length ≤ b := by
  have hn : (0 : ℚ) < l.length := by
    exact_mod_cast List.length_pos.mpr hl
  constructor
  · rw [le_div_iff₀ hn]
    exact mul_length_le_sum ha
  · rw [div_le_iff₀ hn]
    calc l.sum ≤ b * l.length := sum_le_mul_length hb
      _ = b * l.length := rfl

theorem getD_mem {l : List ℚ} {i : ℕ} (h : i < l.length) : l.getD i 0 ∈ l := by
  rw [List.getD_eq_getElem l 0 h]
  exact List.getElem_mem h

theorem pymedian_bounds {l : List ℚ} {a b : ℚ} (hl : l ≠ [])
    (ha : ∀ x ∈ l, a ≤ x) (hb : ∀ x ∈ l, x ≤ b) :
    a ≤ pymedian l ∧ pymedian l ≤ b := by
  have hs : pysort l ≠ [] := pysort_ne_nil hl
  have hlen : 0 < (pysort l).length := List.length_pos.mpr hs
  have hmem : ∀ i, i < (pysort l).length → (pysort l).getD i 0 ∈ l :=
    fun i hi => mem_pysort.mp (getD_mem hi)
  unfold pymedian
  dsimp only
  split
  · have hi : (pysort l).length / 2 < (pysort l).length := Nat.div_lt_self hlen one_lt_two
    exact ⟨ha _ (hmem _ hi), hb _ (hmem _ hi)⟩
  · have hi2 : (pysort l).length / 2 < (pysort l).length := Nat.div_lt_self hlen one_lt_two
    have hi1 : (pysort l).length / 2 - 1 < (pysort l).length := by omega
    have e1 := hmem _ hi1
    have e2 := hmem _ hi2
    constructor
    · have b1 := ha _ e1
      have b2 := ha _ e2
      linarith
    · have b1 := hb _ e1
      have b2 := hb _ e2
      linarith

theorem summarize_fees_eq (values : List ℚ) (hv : values ≠ []) :
    summarize_fees_outlier_safe values =
      ⟨values.length, _safe_avg (_clip_outliers (pysort values)),
       _safe_median (_clip_outliers (pysort values)),
       (pysort values).head?, (pysort values).getLast?⟩ := by
  unfold summarize_fees_outlier_safe
  rw [if_neg hv]
  show (⟨(pysort values).length, _safe_avg (_clip_outliers (pysort values)),
    _safe_median (_clip_outliers (pysort values)), (pysort values).head?,
    (pysort values).getLast?⟩ : FeeSummary) = _
  rw [pysort_length]

theorem summarize_cpm_eq (fees : List (Option ℚ)) (views : List (Option ℤ))
    (hc : cpm_values fees views ≠ []) :
    summarize_cpm_outlier_safe fees views =
      ⟨(cpm_values fees views).length,
       _safe_avg (_clip_outliers (pysort (cpm_values fees views))),
       _safe_median (_clip_outliers (pysort (cpm_values fees views))),
       (pysort (cpm_values fees views)).head?,
       (pysort (cpm_values fees views)).getLast?⟩ := by
  unfold summarize_cpm_outlier_safe
  show (if cpm_values fees views = [] then (⟨0, none, none, none, none⟩ : FeeSummary)
    else ⟨(pysort (cpm_values fees views)).length,
      _safe_avg (_clip_outliers (pysort (cpm_values fees views))),
      _safe_median (_clip_outliers (pysort (cpm_values fees views))),
      (pysort (cpm_values fees views)).head?,
      (pysort (cpm_values fees views)).getLast?⟩) = _
  rw [if_neg hc]
  rw [pysort_length]

/-! ## Claim theorems -/

/-- C1 (corrected): for the sample `[10,20,30,40,50,1000]` the summary has
count 6, min 10, max 1000, and the trimmed slice is the half-open slice
`[0:5]` of the sorted sample — it drops only index 5 and keeps index 0,
leaving `[10,20,30,40,50]`, so avg = 30 and median = 30. -/
theorem claim_C1_amended :
    summarize_fees_outlier_safe [10, 20, 30, 40, 50, 1000] =
      ⟨6, some 30, some 30, some 10, some 1000⟩ ∧
    _clip_outliers [10, 20, 30, 40, 50, 1000] = [10, 20, 30, 40, 50] := by
  constructor <;>
    norm_num [summarize_fees_outlier_safe, _clip_outliers, _safe_avg, _safe_median,
      pymedian, pysort, List.insertionSort, List.orderedInsert, List.cons_ne_nil]

/-- C1 (counterexample to the claim as stated): the summary of
`[10,20,30,40,50,1000]` does not have avg 35 — the trimmed slice keeps
index 0, so the avg is 30, not 35. -/
theorem claim_C1_counterexample :
    (summarize_fees_outlier_safe [10, 20, 30, 40, 50, 1000]).avg ≠ some 35 := by
  norm_num [summarize_fees_outlier_safe, _clip_outliers, _safe_avg, _safe_median,
    pymedian, pysort, List.insertionSort, List.orderedInsert, List.cons_ne_nil]

/-- C6: for a non-empty sample, the fee summary's count is the full
untrimmed sample size and its min/max are the minimum and maximum of the
full untrimmed sample; likewise for the CPM summary over its filtered
`fee/view*1000` values. -/
theorem claim_C6 (values : List ℚ) (fees : List (Option ℚ))
    (views : List (Option ℤ)) (hv : values ≠ [])
    (hc : cpm_values fees views ≠ []) :
    ((summarize_fees_outlier_safe values).count = values.length ∧
      (∃ a, (summarize_fees_outlier_safe values).min = some a ∧ a ∈ values ∧
        ∀ x ∈ values, a ≤ x) ∧
      (∃ b, (summarize_fees_outlier_safe values).max = some b ∧ b ∈ values ∧
        ∀ x ∈ values, x ≤ b)) ∧
    ((summarize_cpm_outlier_safe fees views).count = (cpm_values fees views).length ∧
      (∃ a, (summarize_cpm_outlier_safe fees views).min = some a ∧
        a ∈ cpm_values fees views ∧ ∀ x ∈ cpm_values fees views, a ≤ x) ∧
      (∃ b, (summarize_cpm_outlier_safe fees views).max = some b ∧
        b ∈ cpm_values fees views ∧ ∀ x ∈ cpm_values fees views, x ≤ b)) := by
  rw [summarize_fees_eq values hv, summarize_cpm_eq fees views hc]
  obtain ⟨a, ha1, ha2, ha3⟩ := pysort_head_min hv
  obtain ⟨b, hb1, hb2, hb3⟩ := pysort_getLast_max hv
  obtain ⟨a', ha1', ha2', ha3'⟩ := pysort_head_min hc
  obtain ⟨b', hb1', hb2', hb3'⟩ := pysort_getLast_max hc
  exact ⟨⟨rfl, ⟨a, ha1, ha2, ha3⟩, ⟨b, hb1, hb2, hb3⟩⟩,
    ⟨rfl, ⟨a', ha1', ha2', ha3'⟩, ⟨b', hb1', hb2', hb3'⟩⟩⟩

/-- C6 witness: the fee summary of `[20, 5, 7]` and the CPM summary of the
single valid pair `(100, 1000)` report full-sample counts and extremes. -/
theorem claim_C6_witness :
    (([20, 5, 7] : List ℚ) ≠ [] ∧
      cpm_values [some 100, none] [some 1000, some 50] ≠ []) ∧
    (((summarize_fees_outlier_safe [20, 5, 7]).count = ([20, 5, 7] : List ℚ).length ∧
      (∃ a, (summarize_fees_outlier_safe [20, 5, 7]).min = some a ∧
        a ∈ ([20, 5, 7] : List ℚ) ∧ ∀ x ∈ ([20, 5, 7] : List ℚ), a ≤ x) ∧
      (∃ b, (summarize_fees_outlier_safe [20, 5, 7]).max = some b ∧
        b ∈ ([20, 5, 7] : List ℚ) ∧ ∀ x ∈ ([20, 5, 7] : List ℚ), x ≤ b)) ∧
     ((summarize_cpm_outlier_safe [some 100, none] [some 1000, some 50]).count =
        (cpm_values [some 100, none] [some 1000, some 50]).length ∧
      (∃ a, (summarize_cpm_outlier_safe [some 100, none] [some 1000, some 50]).min = some a ∧
        a ∈ cpm_values [some 100, none] [some 1000, some 50] ∧
        ∀ x ∈ cpm_values [some 100, none] [some 1000, some 50], a ≤ x) ∧
      (∃ b, (summarize_cpm_outlier_safe [some 100, none] [some 1000, some 50]).max = some b ∧
        b ∈ cpm_values [some 100, none] [some 1000, some 50] ∧
        ∀ x ∈ cpm_values [some 100, none] [some 1000, some 50], x ≤ b))) :=
  ⟨⟨by simp, by simp [cpm_values]⟩,
    claim_C6 [20, 5, 7] [some 100, none] [some 1000, some 50] (by simp)
      (by simp [cpm_values])⟩

/-- C10: for a non-empty sample the summary satisfies
min ≤ avg ≤ max and min ≤ median ≤ max: the trimmed slice is a non-empty
subsequence of the sorted full sample, so its average and median lie
between the full-sample extremes. -/
theorem claim_C10 (values : List ℚ) (hv : values ≠ []) :
    ∃ a b av md,
      (summarize_fees_outlier_safe values).min = some a ∧
      (summarize_fees_outlier_safe values).max = some b ∧
      (summarize_fees_outlier_safe values).avg = some av ∧
      (summarize_fees_outlier_safe values).median = some md ∧
      a ≤ av ∧ av ≤ b ∧ a ≤ md ∧ md ≤ b := by
  rw [summarize_fees_eq values hv]
  obtain ⟨a, ha1, ha2, ha3⟩ := pysort_head_min hv
  obtain ⟨b, hb1, hb2, hb3⟩ := pysort_getLast_max hv
  have hcne : _clip_outliers (pysort values) ≠ [] := clip_ne_nil (pysort_ne_nil hv)
  have hcsub : ∀ x ∈ _clip_outliers (pysort values), x ∈ values :=
    fun x hx => mem_pysort.mp (mem_of_mem_clip hx)
  have hca : ∀ x ∈ _clip_outliers (pysort values), a ≤ x :=
    fun x hx => ha3 x (hcsub x hx)
  have hcb : ∀ x ∈ _clip_outliers (pysort values), x ≤ b :=
    fun x hx => hb3 x (hcsub x hx)
  have havg := avg_bounds hcne hca hcb
  have hmed := pymedian_bounds hcne hca hcb
  refine ⟨a, b, (_clip_outliers (pysort values)).sum / (_clip_outliers (pysort values)).length,
    pymedian (_clip_outliers (pysort values)), ha1, hb1, ?_, ?_,
    havg.1, havg.2, hmed.1, hmed.2⟩
  · show _safe_avg _ = _
    rw [_safe_avg, if_neg hcne]
  · show _safe_median _ = _
    rw [_safe_median, if_neg hcne]

/-- C10 witness: the ordering holds for the sample `[10,20,30,40,50,1000]`. -/
theorem claim_C10_witness :
    (([10, 20, 30, 40, 50, 1000] : List ℚ) ≠ []) ∧
    ∃ a b av md,
      (summarize_fees_outlier_safe [10, 20, 30, 40, 50, 1000]).min = some a ∧
      (summarize_fees_outlier_safe [10, 20, 30, 40, 50, 1000]).max = some b ∧
      (summarize_fees_outlier_safe [10, 20, 30, 40, 50, 1000]).avg = some av ∧
      (summarize_fees_outlier_safe [10, 20, 30, 40, 50, 1000]).median = some md ∧
      a ≤ av ∧ av ≤ b ∧ a ≤ md ∧ md ≤ b :=
  ⟨by simp, claim_C10 [10, 20, 30, 40, 50, 1000] (by simp)⟩

/-! ## C2 and C8 — `calculate_rate` -/

theorem normalize_platform_youtube : normalize_platform (some "youtube") = "youtube" := by
  decide

theorem normalize_niche_finance : normalize_niche (some "finance") = "finance" := by
  decide

theorem normalize_geo_us : normalize_geo_region (some "us") = "us" := by
  decide

theorem platform_cpm_youtube : (dict_getQ? platform_cpm "youtube").getD 8 = 15 := rfl

theorem niche_multiplier_finance :
    first_niche_multiplier niche_multipliers "finance" = 1.4 := rfl

/-- C2: for platform `youtube`, niche `finance`, 50000 followers, no
average views, engagement 4.0 and geography `us`, `calculate_rate` returns
base CPM 15, niche multiplier 1.4, engagement multiplier 1.15, geo
multiplier 1.1, views 5000 (10% of followers), effective CPM 26.565 and
the band (106.26, 159.39). -/
theorem claim_C2 :
    calculate_rate "youtube" "finance" (some 50000) none (some 4) "us" =
      ⟨106.26, 159.39, 15, 1.4, 1.15, 1.1, 26.565, 5000⟩ := by
  unfold calculate_rate
  rw [normalize_platform_youtube, normalize_niche_finance, normalize_geo_us]
  norm_num [platform_cpm_youtube, niche_multiplier_finance, RateResult.mk.injEq]

/-- The view estimate computed by `calculate_rate`, as a function of
`avg_views` and `followers` alone. -/
theorem calculate_rate_views (platform niche : String)
    (followers avg_views : Option ℤ) (engagement_rate : Option ℚ)
    (geo_region : String) :
    (calculate_rate platform niche followers avg_views engagement_rate geo_region).views =
      match avg_views, followers with
      | some v, some f => if 0 < v then v else if 0 < f then f / 10 else 0
      | some v, none => if 0 < v then v else 0
      | none, some f => if 0 < f then f / 10 else 0
      | none, none => 0 := by
  simp only [calculate_rate]
  cases avg_views with
  | none =>
    cases followers with
    | none => rfl
    | some f => dsimp only; rw [if_pos rfl]
  | some v =>
    cases followers with
    | none =>
      dsimp only
      by_cases hv : 0 < v
      · simp [hv, show v ≠ 0 by omega]
      · simp [hv]
    | some f =>
      dsimp only
      by_cases hv : 0 < v
      · simp [hv, show v ≠ 0 by omega]
      · simp [hv]

/-- C8 (corrected): when `avgViews` is positive it is used as-is; when it
is absent or not positive and `followers` is positive, the view estimate
is `int(followers * 0.1)` — the *floor* of `followers * 0.1`, i.e.
`followers / 10` in truncating integer division, not exactly
`followers * 0.1`; when both are absent or non-positive it is 0. -/
theorem claim_C8_amended (platform niche : String) (followers avg_views : Option ℤ)
    (engagement_rate : Option ℚ) (geo_region : String) :
    (∀ v, avg_views = some v → 0 < v →
      (calculate_rate platform niche followers avg_views engagement_rate geo_region).views = v) ∧
    ((∀ v, avg_views = some v → v ≤ 0) →
      (∀ f, followers = some f → 0 < f →
        (calculate_rate platform niche followers avg_views engagement_rate geo_region).views
          = f / 10) ∧
      ((∀ f, followers = some f → f ≤ 0) →
        (calculate_rate platform niche followers avg_views engagement_rate geo_region).views
          = 0)) := by
  have hviews := calculate_rate_views platform niche followers avg_views
    engagement_rate geo_region
  constructor
  · rintro v rfl hpos
    rw [hviews]
    cases followers with
    | none => dsimp only; exact if_pos hpos
    | some f => dsimp only; exact if_pos hpos
  · intro hav
    constructor
    · rintro f rfl hf
      rw [hviews]
      cases avg_views with
      | none => dsimp only; exact if_pos hf
      | some v =>
        dsimp only
        rw [if_neg (show ¬ 0 < v by have := hav v rfl; omega), if_pos hf]
    · intro hfol
      rw [hviews]
      cases avg_views with
      | none =>
        cases followers with
        | none => rfl
        | some f =>
          dsimp only
          exact if_neg (show ¬ 0 < f by have := hfol f rfl; omega)
      | some v =>
        cases followers with
        | none =>
          dsimp only
          exact if_neg (show ¬ 0 < v by have := hav v rfl; omega)
        | some f =>
          dsimp only
          rw [if_neg (show ¬ 0 < v by have := hav v rfl; omega),
            if_neg (show ¬ 0 < f by have := hfol f rfl; omega)]

/-- C8 counterexample to the claim as stated: with 15 followers and no
average views the view estimate used is `int(15 * 0.1) = 1`, which is not
`15 * 0.1 = 1.5` exactly. -/
theorem claim_C8_counterexample :
    ((calculate_rate "youtube" "finance" (some 15) none none "us").views : ℚ) ≠
      (15 : ℚ) * 0.1 := by
  have h : (calculate_rate "youtube" "finance" (some 15) none none "us").views = 1 := rfl
  rw [h]
  norm_num

/-- C8 witness: with 40 followers and no usable average views the estimate
is `40 / 10 = 4`; with positive average views 700 the estimate is 700;
with both missing it is 0. -/
theorem claim_C8_witness :
    ((calculate_rate "youtube" "finance" (some 40) (some 0) (some 4) "us").views = 40 / 10) ∧
    ((calculate_rate "youtube" "finance" (some 40) (some 700) (some 4) "us").views = 700) ∧
    ((calculate_rate "youtube" "finance" none none (some 4) "us").views = 0) :=
  ⟨((claim_C8_amended "youtube" "finance" (some 40) (some 0) (some 4) "us").2
      (by rintro v hv; injection hv with hv'; omega)).1 40 rfl (by norm_num),
   (claim_C8_amended "youtube" "finance" (some 40) (some 700) (some 4) "us").1 700 rfl
      (by norm_num),
   ((claim_C8_amended "youtube" "finance" none none (some 4) "us").2
      (by rintro v hv; cases hv)).2 (by rintro f hf; cases hf)⟩

/-! ## C4 — the negotiation counter band -/

/-- C4: whenever the market midpoint is positive, the offer-vs-market
percentage is defined, and the counter band is `[marketMid, marketMax*1.1]`
when the percentage is at most −10 and `[marketMid*0.9, marketMax*1.05]`
otherwise; when the market midpoint is not positive, no counter band is
produced. -/
theorem claim_C4 (brand_offer market_min market_max : ℚ) :
    (0 < market_mid_of market_min market_max →
      (∃ q, offer_vs_market_pct brand_offer market_min market_max = some q) ∧
      ∀ q, offer_vs_market_pct brand_offer market_min market_max = some q →
        (q ≤ -10 → recommended_counter_band brand_offer market_min market_max =
            some (market_mid_of market_min market_max, market_max * 1.1)) ∧
        (-10 < q → recommended_counter_band brand_offer market_min market_max =
            some (market_mid_of market_min market_max * 0.9, market_max * 1.05))) ∧
    (market_mid_of market_min market_max ≤ 0 →
      recommended_counter_band brand_offer market_min market_max = none) := by
  constructor
  · intro hmid
    constructor
    · exact ⟨(brand_offer - market_mid_of market_min market_max) /
          market_mid_of market_min market_max * 100,
        by unfold offer_vs_market_pct; rw [if_pos hmid]⟩
    · intro q hq
      unfold recommended_counter_band
      rw [hq, if_pos hmid]
      constructor
      · intro hle
        dsimp only
        rw [if_pos hle]
      · intro hgt
        dsimp only
        rw [if_neg (by linarith : ¬ q ≤ -10)]
  · intro hle
    unfold recommended_counter_band
    rw [if_neg (not_lt.mpr hle)]

/-- C4 witness: an offer of 50 against the band (80, 120) sits 50% below
the midpoint 100, so the counter band anchors at the midpoint. -/
theorem claim_C4_witness :
    (0 < market_mid_of 80 120 →
      (∃ q, offer_vs_market_pct 50 80 120 = some q) ∧
      ∀ q, offer_vs_market_pct 50 80 120 = some q →
        (q ≤ -10 → recommended_counter_band 50 80 120 =
            some (market_mid_of 80 120, 120 * 1.1)) ∧
        (-10 < q → recommended_counter_band 50 80 120 =
            some (market_mid_of 80 120 * 0.9, 120 * 1.05))) ∧
    (market_mid_of 80 120 ≤ 0 → recommended_counter_band 50 80 120 = none) :=
  claim_C4 50 80 120

/-! ## C9 — quarter validation of `build_quarterly_niche_stats` -/

/-- C9: a quarter outside 1–4 is rejected immediately with the descriptive
error `"quarter must be between 1 and 4"`; a quarter in 1–4 produces a
result. -/
theorem claim_C9 (db : List DealContribution) (niche_code : String)
    (platform_code : Option String) (year quarter : ℤ) :
    ((quarter ≠ 1 ∧ quarter ≠ 2 ∧ quarter ≠ 3 ∧ quarter ≠ 4) →
      build_quarterly_niche_stats db niche_code platform_code year quarter =
        .error "quarter must be between 1 and 4") ∧
    ((quarter = 1 ∨ quarter = 2 ∨ quarter = 3 ∨ quarter = 4) →
      ∃ r, build_quarterly_niche_stats db niche_code platform_code year quarter = .ok r) := by
  constructor
  · intro h
    unfold build_quarterly_niche_stats
    rw [if_pos h]
  · intro h
    have h' : ¬ (quarter ≠ 1 ∧ quarter ≠ 2 ∧ quarter ≠ 3 ∧ quarter ≠ 4) := by
      rcases h with h | h | h | h <;> simp [h]
    unfold build_quarterly_niche_stats
    rw [if_neg h']
    exact ⟨_, rfl⟩

/-- C9 witness: quarter 7 is rejected with the descriptive error, while
quarter 3 succeeds. -/
theorem claim_C9_witness :
    (build_quarterly_niche_stats [] "finance" none 2024 7 =
      .error "quarter must be between 1 and 4") ∧
    (∃ r, build_quarterly_niche_stats [] "finance" none 2024 3 = .ok r) :=
  ⟨(claim_C9 [] "finance" none 2024 7).1 (by norm_num),
   (claim_C9 [] "finance" none 2024 3).2 (by norm_num)⟩

/-! ## C3 — the community blend of `calculator_submit` -/

/-- The fee sample of a cohort: the fees of its qualifying shared rows
(the local `fees` list of `get_bucket_community_pricing`). -/
def community_fees (db : List DealContribution)
    (platform niche follower_tier : String) (geo_region : Option String) : List ℚ :=
  (community_rows db platform niche follower_tier geo_region).filterMap
    (fun r => r.total_fee_usd)

theorem get_bucket_eq_none_iff (db : List DealContribution)
    (platform niche follower_tier : String) (geo_region : Option String)
    (min_deals : ℕ) :
    get_bucket_community_pricing db platform niche follower_tier geo_region min_deals = none ↔
      (community_fees db platform niche follower_tier geo_region).length < min_deals := by
  unfold get_bucket_community_pricing community_fees
  by_cases h : ((community_rows db platform niche follower_tier geo_region).filterMap
      (fun r => r.total_fee_usd)).length < min_deals
  · simp [h]
  · simp [h]

theorem get_bucket_eq_some (db : List DealContribution)
    (platform niche follower_tier : String) (geo_region : Option String)
    (min_deals : ℕ)
    (hm : ¬ (community_fees db platform niche follower_tier geo_region).length < min_deals)
    (hne : community_fees db platform niche follower_tier geo_region ≠ []) :
    get_bucket_community_pricing db platform niche follower_tier geo_region min_deals =
      some ⟨(community_fees db platform niche follower_tier geo_region).length,
        _safe_avg (_clip_outliers (pysort (community_fees db platform niche follower_tier geo_region))),
        _safe_median (_clip_outliers (pysort (community_fees db platform niche follower_tier geo_region))),
        (pysort (community_fees db platform niche follower_tier geo_region)).head?,
        (pysort (community_fees db platform niche follower_tier geo_region)).getLast?⟩ := by
  have hs := summarize_fees_eq (community_fees db platform niche follower_tier geo_region) hne
  unfold community_fees at hm hs ⊢
  unfold get_bucket_community_pricing
  simp only [if_neg hm]
  rw [hs]

/-- C3: with a positive baseline midpoint `B`, the community blend is
applied if and only if the cohort has at least 5 qualifying deals and the
community median `C` satisfies `0.5 ≤ C/B ≤ 2.0`; when applied, the
recommendation becomes `((0.6*B + 0.4*C)*0.8, (0.6*B + 0.4*C)*1.2)`, and
otherwise the baseline band is returned unmodified with no blend note. -/
theorem claim_C3 (db : List DealContribution)
    (platform niche follower_tier : String) (geo_region : Option String)
    (baseline_min baseline_max : ℚ) (hB : 0 < baseline_min + baseline_max) :
    ((calculator_blend baseline_min baseline_max
        (get_bucket_community_pricing db platform niche follower_tier geo_region 5)).2.2 = true ↔
      (5 ≤ (community_fees db platform niche follower_tier geo_region).length ∧
        ∃ C, (get_bucket_community_pricing db platform niche follower_tier geo_region 5).bind
            CohortPricing.median_fee = some C ∧
          0.5 ≤ C / ((baseline_min + baseline_max) / 2) ∧
          C / ((baseline_min + baseline_max) / 2) ≤ 2)) ∧
    (∀ C, (get_bucket_community_pricing db platform niche follower_tier geo_region 5).bind
        CohortPricing.median_fee = some C →
      0.5 ≤ C / ((baseline_min + baseline_max) / 2) →
      C / ((baseline_min + baseline_max) / 2) ≤ 2 →
      calculator_blend baseline_min baseline_max
          (get_bucket_community_pricing db platform niche follower_tier geo_region 5) =
        ((0.6 * ((baseline_min + baseline_max) / 2) + 0.4 * C) * 0.8,
         (0.6 * ((baseline_min + baseline_max) / 2) + 0.4 * C) * 1.2, true)) ∧
    ((calculator_blend baseline_min baseline_max
        (get_bucket_community_pricing db platform niche follower_tier geo_region 5)).2.2 = false →
      calculator_blend baseline_min baseline_max
          (get_bucket_community_pricing db platform niche follower_tier geo_region 5) =
        (baseline_min, baseline_max, false)) := by
  by_cases h5 : (community_fees db platform niche follower_tier geo_region).length < 5
  · have hnone : get_bucket_community_pricing db platform niche follower_tier geo_region 5 = none :=
      (get_bucket_eq_none_iff db platform niche follower_tier geo_region 5).mpr h5
    rw [hnone]
    refine ⟨?_, ?_, ?_⟩
    · constructor
      · intro h
        simp [calculator_blend] at h
      · rintro ⟨hlen, -⟩
        omega
    · intro C hC
      simp at hC
    · intro _
      rfl
  · have hlen5 : 5 ≤ (community_fees db platform niche follower_tier geo_region).length := by
      omega
    have hne : community_fees db platform niche follower_tier geo_region ≠ [] := by
      intro h0
      rw [h0] at hlen5
      simp at hlen5
    have hsome := get_bucket_eq_some db platform niche follower_tier geo_region 5 h5 hne
    have hcne : _clip_outliers (pysort (community_fees db platform niche follower_tier geo_region)) ≠ [] :=
      clip_ne_nil (pysort_ne_nil hne)
    have hmed : _safe_median (_clip_outliers (pysort (community_fees db platform niche follower_tier geo_region))) =
        some (pymedian (_clip_outliers (pysort (community_fees db platform niche follower_tier geo_region)))) := by
      rw [_safe_median, if_neg hcne]
    rw [hsome, hmed]
    set M := pymedian (_clip_outliers (pysort (community_fees db platform niche follower_tier geo_region))) with hM
    set B := (baseline_min + baseline_max) / 2 with hBdef
    have hBpos : 0 < B := div_pos hB two_pos
    simp only [calculator_blend, Option.bind, CohortPricing.median_fee]
    rw [if_pos hlen5]
    simp only [if_pos hB, if_pos hBpos, show (2.0 : ℚ) = 2 by norm_num]
    by_cases hr : (0.5 : ℚ) ≤ M / B ∧ M / B ≤ 2
    · rw [if_pos hr]
      refine ⟨?_, ?_, ?_⟩
      · constructor
        · intro _
          exact ⟨hlen5, M, rfl, hr.1, hr.2⟩
        · intro _
          rfl
      · rintro C hC h1 h2
        have hCM : C = M := by injection hC with h; exact h.symm
        subst hCM
        rfl
      · intro h
        simp at h
    · rw [if_neg hr]
      refine ⟨?_, ?_, ?_⟩
      · constructor
        · intro h
          simp at h
        · rintro ⟨-, C, hC, h1, h2⟩
          have hCM : C = M := by injection hC with h; exact h.symm
          subst hCM
          exact absurd ⟨h1, h2⟩ hr
      · rintro C hC h1 h2
        have hCM : C = M := by injection hC with h; exact h.symm
        subst hCM
        exact absurd ⟨h1, h2⟩ hr
      · intro _
        rfl

/-- A cohort of five shared deals of 1000 each, used to instantiate C3:
against the baseline band (80, 120) the community median is 10x the
baseline midpoint, so the guard must reject the blend. -/
def c3_db : List DealContribution :=
  [⟨⟨2024, 1, 11, 0, 0, 0⟩, "youtube", some "finance", some "us", "50k_100k", some 1000, none, true⟩,
   ⟨⟨2024, 1, 12, 0, 0, 0⟩, "youtube", some "finance", some "us", "50k_100k", some 1000, none, true⟩,
   ⟨⟨2024, 1, 13, 0, 0, 0⟩, "youtube", some "finance", some "us", "50k_100k", some 1000, none, true⟩,
   ⟨⟨2024, 1, 14, 0, 0, 0⟩, "youtube", some "finance", some "us", "50k_100k", some 1000, none, true⟩,
   ⟨⟨2024, 1, 15, 0, 0, 0⟩, "youtube", some "finance", some "us", "50k_100k", some 1000, none, true⟩]

/-- C3 witness: the blend characterization instantiated on a cohort whose
community median (1000) is 10x the baseline midpoint (100). -/
theorem claim_C3_witness :
    (0 : ℚ) < 80 + 120 ∧
    (((calculator_blend 80 120
        (get_bucket_community_pricing c3_db "youtube" "finance" "50k_100k" (some "us") 5)).2.2 = true ↔
      (5 ≤ (community_fees c3_db "youtube" "finance" "50k_100k" (some "us")).length ∧
        ∃ C, (get_bucket_community_pricing c3_db "youtube" "finance" "50k_100k" (some "us") 5).bind
            CohortPricing.median_fee = some C ∧
          0.5 ≤ C / (((80 : ℚ) + 120) / 2) ∧ C / (((80 : ℚ) + 120) / 2) ≤ 2)) ∧
    (∀ C, (get_bucket_community_pricing c3_db "youtube" "finance" "50k_100k" (some "us") 5).bind
        CohortPricing.median_fee = some C →
      0.5 ≤ C / (((80 : ℚ) + 120) / 2) → C / (((80 : ℚ) + 120) / 2) ≤ 2 →
      calculator_blend 80 120
          (get_bucket_community_pricing c3_db "youtube" "finance" "50k_100k" (some "us") 5) =
        ((0.6 * (((80 : ℚ) + 120) / 2) + 0.4 * C) * 0.8,
         (0.6 * (((80 : ℚ) + 120) / 2) + 0.4 * C) * 1.2, true)) ∧
    ((calculator_blend 80 120
        (get_bucket_community_pricing c3_db "youtube" "finance" "50k_100k" (some "us") 5)).2.2 = false →
      calculator_blend 80 120
          (get_bucket_community_pricing c3_db "youtube" "finance" "50k_100k" (some "us") 5) =
        (80, 120, false))) :=
  ⟨by norm_num, claim_C3 c3_db "youtube" "finance" "50k_100k" (some "us") 80 120 (by norm_num)⟩

/-! ## C5 — the cohort query of `get_bucket_community_pricing` -/

theorem filterMap_fee_length {rows : List DealContribution}
    (h : ∀ r ∈ rows, (r.total_fee_usd).isSome = true) :
    (rows.filterMap (fun r => r.total_fee_usd)).length = rows.length := by
  induction rows with
  | nil => rfl
  | cons r t ih =>
    have hr := h r (List.mem_cons_self r t)
    obtain ⟨f, hf⟩ := Option.isSome_iff_exists.mp hr
    rw [List.filterMap_cons, hf]
    simp [ih (fun x hx => h x (List.mem_cons_of_mem r hx))]

theorem mem_community_base {db : List DealContribution}
    {platform niche follower_tier : String} {r : DealContribution} :
    r ∈ db.filter (fun r =>
      r.share_in_index && r.platform == platform && r.niche == some niche &&
      r.follower_tier == follower_tier &&
      (match r.total_fee_usd with
       | some f => decide (0 < f)
       | none => false)) →
    r.share_in_index = true ∧ r.platform = platform ∧ r.niche = some niche ∧
      r.follower_tier = follower_tier ∧ ∃ f, r.total_fee_usd = some f ∧ 0 < f := by
  intro hr
  obtain ⟨-, hpred⟩ := List.mem_filter.mp hr
  simp only [Bool.and_eq_true, beq_iff_eq] at hpred
  obtain ⟨⟨⟨⟨h1, h2⟩, h3⟩, h4⟩, h5⟩ := hpred
  refine ⟨h1, h2, h3, h4, ?_⟩
  cases hfee : r.total_fee_usd with
  | none =>
    rw [hfee] at h5
    simp at h5
  | some f =>
    rw [hfee] at h5
    exact ⟨f, rfl, of_decide_eq_true h5⟩

/-- C5 (amended): every record contributing to the community pricing is a
shared record matching the cohort's platform, niche and follower tier with
a positive fee; it additionally matches the cohort's geography whenever
that geography is present, non-empty and not `"other"` (for a missing,
empty or `"other"` geography the query does not filter by geography); and
the result is absent exactly when fewer than `min_deals` such records
exist. -/
theorem claim_C5_amended (db : List DealContribution)
    (platform niche follower_tier : String) (geo_region : Option String)
    (min_deals : ℕ) :
    (∀ r ∈ community_rows db platform niche follower_tier geo_region,
      r.share_in_index = true ∧ r.platform = platform ∧ r.niche = some niche ∧
      r.follower_tier = follower_tier ∧ (∃ f, r.total_fee_usd = some f ∧ 0 < f) ∧
      ∀ g, geo_region = some g → g ≠ "" → g ≠ "other" → r.geo_region = some g) ∧
    (get_bucket_community_pricing db platform niche follower_tier geo_region min_deals = none ↔
      (community_rows db platform niche follower_tier geo_region).length < min_deals) := by
  have hmem : ∀ r ∈ community_rows db platform niche follower_tier geo_region,
      r.share_in_index = true ∧ r.platform = platform ∧ r.niche = some niche ∧
      r.follower_tier = follower_tier ∧ (∃ f, r.total_fee_usd = some f ∧ 0 < f) ∧
      ∀ g, geo_region = some g → g ≠ "" → g ≠ "other" → r.geo_region = some g := by
    intro r hr
    unfold community_rows at hr
    cases geo_region with
    | none =>
      dsimp only at hr
      obtain ⟨h1, h2, h3, h4, h5⟩ := mem_community_base hr
      exact ⟨h1, h2, h3, h4, h5, by rintro g hg; cases hg⟩
    | some g0 =>
      dsimp only at hr
      by_cases hg0 : (g0 != "" && g0 != "other") = true
      · rw [if_pos hg0] at hr
        obtain ⟨hr', hgeo⟩ := List.mem_filter.mp hr
        obtain ⟨h1, h2, h3, h4, h5⟩ := mem_community_base hr'
        refine ⟨h1, h2, h3, h4, h5, ?_⟩
        rintro g hg - -
        injection hg with hgg
        subst hgg
        exact beq_iff_eq.mp hgeo
      · rw [if_neg hg0] at hr
        obtain ⟨h1, h2, h3, h4, h5⟩ := mem_community_base hr
        refine ⟨h1, h2, h3, h4, h5, ?_⟩
        rintro g hg hne1 hne2
        injection hg with hgg
        subst hgg
        simp only [Bool.and_eq_true, bne_iff_ne, ne_eq] at hg0
        exact absurd ⟨hne1, hne2⟩ hg0
  refine ⟨hmem, ?_⟩
  rw [get_bucket_eq_none_iff]
  have hlen : (community_fees db platform niche follower_tier geo_region).length =
      (community_rows db platform niche follower_tier geo_region).length := by
    unfold community_fees
    apply filterMap_fee_length
    intro r hr
    obtain ⟨-, -, -, -, ⟨f, hf, -⟩, -⟩ := hmem r hr
    rw [hf]
    rfl
  rw [hlen]

/-- A record whose geography (`us`) differs from its cohort key's
geography (`other`), yet which contributes to that cohort's community
pricing. -/
def c5_rec : DealContribution :=
  ⟨⟨2024, 1, 10, 0, 0, 0⟩, "instagram", some "beauty", some "us", "10k_25k", some 100, none, true⟩

/-- Five shared `instagram`/`beauty`/`10k_25k` deals with five different
geographies. -/
def c5_db : List DealContribution :=
  [c5_rec,
   ⟨⟨2024, 1, 11, 0, 0, 0⟩, "instagram", some "beauty", some "eu", "10k_25k", some 150, none, true⟩,
   ⟨⟨2024, 1, 12, 0, 0, 0⟩, "instagram", some "beauty", some "uk", "10k_25k", some 200, none, true⟩,
   ⟨⟨2024, 1, 13, 0, 0, 0⟩, "instagram", some "beauty", some "apac", "10k_25k", some 250, none, true⟩,
   ⟨⟨2024, 1, 14, 0, 0, 0⟩, "instagram", some "beauty", some "latam", "10k_25k", some 300, none, true⟩]

/-- C5 counterexample to the claim as stated: for the cohort key
(`instagram`, `beauty`, `10k_25k`, `other`), community pricing is returned
and the record with geography `us` contributes to it, yet `us` does not
match the cohort's geography `other` — the geography filter is skipped for
an `"other"` cohort geography. -/
theorem claim_C5_counterexample :
    (get_bucket_community_pricing c5_db "instagram" "beauty" "10k_25k" (some "other") 5).isSome
        = true ∧
    c5_rec ∈ community_rows c5_db "instagram" "beauty" "10k_25k" (some "other") ∧
    c5_rec.geo_region ≠ some "other" := by
  refine ⟨?_, ?_, ?_⟩ <;> decide

/-- C5 witness: the amended contract instantiated on the five-deal cohort
with geography `us`. -/
theorem claim_C5_witness :
    (∀ r ∈ community_rows c5_db "instagram" "beauty" "10k_25k" (some "us"),
      r.share_in_index = true ∧ r.platform = "instagram" ∧ r.niche = some "beauty" ∧
      r.follower_tier = "10k_25k" ∧ (∃ f, r.total_fee_usd = some f ∧ 0 < f) ∧
      ∀ g, (some "us" : Option String) = some g → g ≠ "" → g ≠ "other" →
        r.geo_region = some g) ∧
    (get_bucket_community_pricing c5_db "instagram" "beauty" "10k_25k" (some "us") 5 = none ↔
      (community_rows c5_db "instagram" "beauty" "10k_25k" (some "us")).length < 5) :=
  claim_C5_amended c5_db "instagram" "beauty" "10k_25k" (some "us") 5

/-! ## C7 — previous-quarter reporting of `build_quarterly_niche_stats` -/

/-- The rows of the immediately preceding quarter's window (the local
`prev_rows` of `build_quarterly_niche_stats`). -/
def prev_window_rows (db : List DealContribution) (niche_code : String)
    (platform_code : Option String) (year quarter : ℤ) : List DealContribution :=
  quarter_rows db niche_code platform_code
    (_quarter_date_range (prev_year_quarter year quarter).1 (prev_year_quarter year quarter).2).1
    (_quarter_date_range (prev_year_quarter year quarter).1 (prev_year_quarter year quarter).2).2

/-- C7 (amended): for a valid invocation, the previous quarter's window is
reported whenever it contains at least one matching record, regardless of
its own threshold; a below-threshold but non-empty previous window still
reports its deal count and the min/max of its raw untrimmed fee sample,
with null averages and medians; an empty previous window is not reported
at all (the `prev_quarter` field is absent, with no zero count). -/
theorem claim_C7_amended (db : List DealContribution) (niche_code : String)
    (platform_code : Option String) (year quarter : ℤ)
    (hq : quarter = 1 ∨ quarter = 2 ∨ quarter = 3 ∨ quarter = 4) :
    (prev_window_rows db niche_code platform_code year quarter = [] →
      (build_quarterly_niche_stats db niche_code platform_code year quarter).toOption.map
          QuarterlyNicheStats.prev_quarter = some none) ∧
    (prev_window_rows db niche_code platform_code year quarter ≠ [] →
      (∃ s, (build_quarterly_niche_stats db niche_code platform_code year quarter).toOption.map
          QuarterlyNicheStats.prev_quarter = some (some s)) ∧
      ((prev_window_rows db niche_code platform_code year quarter).length < 5 →
        (build_quarterly_niche_stats db niche_code platform_code year quarter).toOption.map
            QuarterlyNicheStats.prev_quarter = some (some
          ⟨(prev_window_rows db niche_code platform_code year quarter).length, none, none,
           (pysort ((prev_window_rows db niche_code platform_code year quarter).filterMap
             (fun r => r.total_fee_usd))).head?,
           (pysort ((prev_window_rows db niche_code platform_code year quarter).filterMap
             (fun r => r.total_fee_usd))).getLast?,
           none, none, (prev_year_quarter year quarter).1,
           (prev_year_quarter year quarter).2⟩))) := by
  have h' : ¬ (quarter ≠ 1 ∧ quarter ≠ 2 ∧ quarter ≠ 3 ∧ quarter ≠ 4) := by
    rcases hq with h | h | h | h <;> simp [h]
  unfold prev_window_rows
  unfold build_quarterly_niche_stats
  rw [if_neg h']
  simp only [Except.toOption, Option.map]
  constructor
  · intro hempty
    rw [if_pos hempty]
  · intro hne
    rw [if_neg hne]
    constructor
    · by_cases h5 : 5 ≤ (quarter_rows db niche_code platform_code
          (_quarter_date_range (prev_year_quarter year quarter).1
            (prev_year_quarter year quarter).2).1
          (_quarter_date_range (prev_year_quarter year quarter).1
            (prev_year_quarter year quarter).2).2).length
      · rw [if_pos h5]
        exact ⟨_, rfl⟩
      · rw [if_neg h5]
        exact ⟨_, rfl⟩
    · intro hlt
      rw [if_neg (by omega : ¬ 5 ≤ (quarter_rows db niche_code platform_code
          (_quarter_date_range (prev_year_quarter year quarter).1
            (prev_year_quarter year quarter).2).1
          (_quarter_date_range (prev_year_quarter year quarter).1
            (prev_year_quarter year quarter).2).2).length)]

/-- C7 counterexample to the claim as stated: on an empty record store,
quarter 2 of 2024 has a previous window (Q1 2024) with 0 deals — below the
threshold — yet the previous quarter is not reported at all (`prev_quarter`
is absent instead of carrying the window's deal count of 0). -/
theorem claim_C7_counterexample :
    (build_quarterly_niche_stats [] "finance" none 2024 2).toOption.map
        QuarterlyNicheStats.prev_quarter = some none ∧
    (prev_window_rows [] "finance" none 2024 2).length < 5 := by
  constructor <;> decide

/-- Two shared `finance` deals logged in Q1 2024, used to instantiate C7's
below-threshold previous-window reporting for a Q2 2024 report. -/
def c7_db : List DealContribution :=
  [⟨⟨2024, 2, 15, 0, 0, 0⟩, "youtube", some "finance", some "us", "50k_100k", some 100, none, true⟩,
   ⟨⟨2024, 3, 1, 0, 0, 0⟩, "youtube", some "finance", some "us", "50k_100k", some 200, none, true⟩]

/-- C7 witness: a Q2 2024 report over two Q1 2024 deals reports the
previous window with count 2, raw min/max, and null averages/medians. -/
theorem claim_C7_witness :
    prev_window_rows c7_db "finance" none 2024 2 ≠ [] ∧
    (prev_window_rows c7_db "finance" none 2024 2).length < 5 ∧
    (build_quarterly_niche_stats c7_db "finance" none 2024 2).toOption.map
        QuarterlyNicheStats.prev_quarter = some (some
      ⟨(prev_window_rows c7_db "finance" none 2024 2).length, none, none,
       (pysort ((prev_window_rows c7_db "finance" none 2024 2).filterMap
         (fun r => r.total_fee_usd))).head?,
       (pysort ((prev_window_rows c7_db "finance" none 2024 2).filterMap
         (fun r => r.total_fee_usd))).getLast?,
       none, none, 2024, 1⟩) := by
  have h := claim_C7_amended c7_db "finance" none 2024 2 (by norm_num)
  have hne : prev_window_rows c7_db "finance" none 2024 2 ≠ [] := by decide
  have hlt : (prev_window_rows c7_db "finance" none 2024 2).length < 5 := by decide
  exact ⟨hne, hlt, (h.2 hne).2 hlt⟩
